import Mathlib

/-!
Verification of the core actuarial logic of the insurance-analytics
dashboard (src/js/dashboard.js) against its specification.

The JavaScript source is shallowly embedded below: every numeric value is
modelled as an exact rational (`Rat`), JS arrays become `List`, the global
`dashboardData` object becomes an explicit `DashboardData` record, and the
mutable UI globals that some functions read (`qualityThreshold`) become
explicit parameters.  Fallible lookups return `Option`.
-/

unseal Rat.add Rat.mul Rat.sub Rat.inv Rat.ofScientific

/-! ## Data model (section 3 of the spec, fields as in `data/analytics.json`) -/

/-- The `Type` field of a long-format claim record: "Actual" or "Expected". -/
inductive RecType where
  | Actual
  | Expected
deriving DecidableEq, Repr

/-- A long-format claim record (element of `dashboardData.records`); the
source field `Type` is spelled `Type'` because `Type` is a Lean keyword. -/
structure ClaimRecord where
  Class : String
  Cohort : String
  Development_Period : Nat
  Type' : RecType
  Value : Rat
deriving DecidableEq, Repr

/-- An ultimate estimate row (element of `dashboardData.ultimates`). -/
structure UltimateEstimate where
  Class : String
  Cohort : String
  Method : String
  Ultimate : Rat
  Method_Type : String
deriving DecidableEq, Repr

/-- A method-score row (element of `dashboardData.method_scores`); only the
fields the embedded functions read are modelled. -/
structure MethodScore where
  Class : String
  Method : String
  Reserve_Det : Rat
  Proj_Quality : Rat
deriving DecidableEq, Repr

/-- A claim-movement row (element of `dashboardData.claims`). -/
structure ClaimMovement where
  Class : String
  Cohort : String
  Claim_ID : String
  Status : String
  Incurred_Current : Rat
  Incurred_Prior : Rat
deriving DecidableEq, Repr

/-- A premium row (element of `dashboardData.premiums`). -/
structure PremiumRow where
  Class : String
  Cohort : String
  Earned : Rat
  Prior_Earned : Rat
deriving DecidableEq, Repr

/-- A claim-count row (element of `dashboardData.cohort_claim_counts`). -/
structure ClaimCountRow where
  Class : String
  Cohort : String
  Count_Current : Rat
  Count_Prior : Rat
deriving DecidableEq, Repr

/-- The parsed dataset consumed by the core (the `dashboardData` global).
`large_loss_thresholds` is a JS object mapping class name to number,
modelled as an association list. -/
structure DashboardData where
  records : List ClaimRecord
  ultimates : List UltimateEstimate
  method_scores : List MethodScore
  claims : List ClaimMovement
  large_loss_thresholds : List (String × Rat)
  premiums : List PremiumRow
  cohort_claim_counts : List ClaimCountRow

/-! ## Constants (dashboard.js, top of file and DAG thresholds) -/

/-- `var MAX_DEV_PERIOD = 12;` -/
def MAX_DEV_PERIOD : Rat := 12

/-- `var DAG_AE_THRESHOLD = 0.05;` -/
def DAG_AE_THRESHOLD : Rat := 0.05

/-- `var DAG_CLAIM_COUNT_THRESHOLD = 0.15;` -/
def DAG_CLAIM_COUNT_THRESHOLD : Rat := 0.15

/-- `var DAG_LARGE_LOSS_PCT_THRESHOLD = 50;` -/
def DAG_LARGE_LOSS_PCT_THRESHOLD : Rat := 50

/-- `var DAG_PREMIUM_CHANGE_THRESHOLD = 0.10;` -/
def DAG_PREMIUM_CHANGE_THRESHOLD : Rat := 0.10

/-! ## Development curve (dashboard.js `developmentFraction`, lines 117–122) -/

/-- Cumulative development fraction at a development period.
`var t = dp / MAX_DEV_PERIOD; if (t >= 1) return 1; if (t <= 0) return 0;
return 1 - Math.pow(1 - t, 2);` -/
def developmentFraction (dp : Rat) : Rat :=
  let t := dp / MAX_DEV_PERIOD
  if t ≥ 1 then 1
  else if t ≤ 0 then 0
  else 1 - (1 - t) ^ 2

/-! ## Data helpers (dashboard.js lines 320–553) -/

/-- One point of a per-cohort series: the JS object `{ dp, val }` pushed by
`getGroupedData`. -/
structure DevPoint where
  dp : Nat
  val : Rat
deriving DecidableEq, Repr

/-- The per-cohort series bucket `{ Actual: [...], Expected: [...] }`. -/
structure GroupedSeries where
  Actual : List DevPoint
  Expected : List DevPoint
deriving DecidableEq, Repr

/-- The per-cohort, per-type array built by `getGroupedData` (lines 320–336):
records are filtered to the class, bucketed by cohort and type in input
order, then each bucket is sorted ascending by `dp` (JS `Array.sort` is
stable, as is `List.insertionSort`). -/
def seriesFor (data : DashboardData) (className cohort : String)
    (ty : RecType) : List DevPoint :=
  List.insertionSort (fun a b => a.dp ≤ b.dp)
    (((data.records.filter (fun r => decide (r.Class = className))).filter
      (fun r => decide (r.Cohort = cohort ∧ r.Type' = ty))).map
      (fun r => DevPoint.mk r.Development_Period r.Value))

/-- `getGroupedData(className)` as a total mapping from cohort name to its
series bucket (a cohort with no records maps to the empty bucket, which the
JS object simply omits). -/
def getGroupedData (data : DashboardData) (className : String) :
    String → GroupedSeries :=
  fun cohort =>
    ⟨seriesFor data className cohort RecType.Actual,
     seriesFor data className cohort RecType.Expected⟩

/-- Method keys passing the projection-quality threshold for a class
(`getPassingMethods`, lines 437–444; the global `qualityThreshold` is an
explicit parameter here). -/
def getPassingMethods (data : DashboardData) (className : String)
    (qualityThreshold : Rat) : List String :=
  ((data.method_scores.filter
      (fun s => decide (s.Class = className ∧ s.Proj_Quality ≥ qualityThreshold))).map
      (fun s => s.Method))

/-- The `{min, max, count}` band object returned by `getUltimateBand`. -/
structure Band where
  min : Rat
  max : Rat
  count : Nat
deriving DecidableEq, Repr

/-- The list of ultimates collected by `getUltimateBand`'s forEach loop:
same class, same cohort, method present in `passingMethods`
(`passingMethods.indexOf(u.Method) >= 0`). -/
def bandVals (data : DashboardData) (className cohort : String)
    (passingMethods : List String) : List Rat :=
  ((data.ultimates.filter
      (fun u => decide (u.Class = className ∧ u.Cohort = cohort ∧
        u.Method ∈ passingMethods))).map (fun u => u.Ultimate))

/-- `getUltimateBand` (lines 450–468): `null` when no passing method has an
ultimate for the cohort, else the min/max/count over the collected values. -/
def getUltimateBand (data : DashboardData) (className cohort : String)
    (passingMethods : List String) : Option Band :=
  match bandVals data className cohort passingMethods with
  | [] => none
  | v :: vs => some ⟨vs.foldl min v, vs.foldl max v, (v :: vs).length⟩

/-- Lookup of `dashboardData.large_loss_thresholds[className]` (a JS object
property access; `none` models `undefined`). -/
def lookupLargeThreshold (thresholds : List (String × Rat))
    (className : String) : Option Rat :=
  (thresholds.find? (fun p => decide (p.1 = className))).map (fun p => p.2)

/-- `getLargeThreshold` (lines 473–476): `thresholds[className] || 100000`.
The JS `||` yields the default both when the key is absent and when the
stored value is falsy (i.e. `0`). -/
def getLargeThreshold (data : DashboardData) (className : String) : Rat :=
  match lookupLargeThreshold data.large_loss_thresholds className with
  | none => 100000
  | some v => if v = 0 then 100000 else v

/-- `{ countCurrent, countPrior, changePct }` returned by
`getClaimCountChange`. -/
structure ClaimCountChange where
  countCurrent : Rat
  countPrior : Rat
  changePct : Rat
deriving DecidableEq, Repr

/-- `getClaimCountChange` (lines 527–539): linear scan, first matching row
wins; `Count_Prior || 0 === 0` short-circuits to a zero `changePct`. -/
def getClaimCountChange (data : DashboardData) (className cohort : String) :
    Option ClaimCountChange :=
  claimCountScan data.cohort_claim_counts className cohort
where
  claimCountScan : List ClaimCountRow → String → String → Option ClaimCountChange
    | [], _, _ => none
    | c :: rest, className, cohort =>
      if c.Class = className ∧ c.Cohort = cohort then
        if c.Count_Prior = 0 then
          some ⟨c.Count_Current, 0, 0⟩
        else
          some ⟨c.Count_Current, c.Count_Prior,
            (c.Count_Current - c.Count_Prior) / c.Count_Prior⟩
      else claimCountScan rest className cohort

/-- `{ earned, priorEarned, changePct }` returned by `getPremiumChange`. -/
structure PremiumChange where
  earned : Rat
  priorEarned : Rat
  changePct : Rat
deriving DecidableEq, Repr

/-- `getPremiumChange` (lines 509–521): first matching row wins; a zero or
missing `Prior_Earned` yields `null`. -/
def getPremiumChange (data : DashboardData) (className cohort : String) :
    Option PremiumChange :=
  premiumScan data.premiums className cohort
where
  premiumScan : List PremiumRow → String → String → Option PremiumChange
    | [], _, _ => none
    | p :: rest, className, cohort =>
      if p.Class = className ∧ p.Cohort = cohort then
        if p.Prior_Earned = 0 then none
        else some ⟨p.Earned, p.Prior_Earned,
          (p.Earned - p.Prior_Earned) / p.Prior_Earned⟩
      else premiumScan rest className cohort

/-- `getMaxClaimsBasedUltimate` (lines 544–553): max ultimate among
claims-based methods for the class/cohort, `null` when none. -/
def getMaxClaimsBasedUltimate (data : DashboardData) (className cohort : String) :
    Option Rat :=
  (data.ultimates.filter
      (fun u => decide (u.Class = className ∧ u.Cohort = cohort ∧
        u.Method_Type = "Claims-based"))).foldl
    (fun acc u => match acc with
      | none => some u.Ultimate
      | some m => if u.Ultimate > m then some u.Ultimate else some m) none

/-! ## A-vs-E attribution engine (dashboard.js `getAEAttribution`, 625–661) -/

/-- The attribution record returned by `getAEAttribution`. -/
structure AEAttribution where
  total : Rat
  large : Rat
  attritional : Rat
  largePct : Rat
  largeLossCount : Nat
  attritionalCount : Nat
  totalCount : Nat
  threshold : Rat
deriving DecidableEq, Repr

/-- Accumulator of `getAEAttribution`'s forEach loop. -/
structure AttrAcc where
  totalMovement : Rat
  largeLossMovement : Rat
  attritionalMovement : Rat
  largeLossCount : Nat
  attritionalCount : Nat
deriving DecidableEq, Repr

/-- One iteration of `getAEAttribution`'s forEach loop: add the movement to
the total and to the large or attritional side by the threshold test
`c.Incurred_Current >= threshold`. -/
def attrStep (threshold : Rat) (acc : AttrAcc) (c : ClaimMovement) : AttrAcc :=
  let mov := c.Incurred_Current - c.Incurred_Prior
  if c.Incurred_Current ≥ threshold then
    { acc with totalMovement := acc.totalMovement + mov,
               largeLossMovement := acc.largeLossMovement + mov,
               largeLossCount := acc.largeLossCount + 1 }
  else
    { acc with totalMovement := acc.totalMovement + mov,
               attritionalMovement := acc.attritionalMovement + mov,
               attritionalCount := acc.attritionalCount + 1 }

/-- The claims of one class/cohort (`claims.filter` in `getAEAttribution`). -/
def cohortClaimsOf (data : DashboardData) (className cohort : String) :
    List ClaimMovement :=
  data.claims.filter (fun c => decide (c.Class = className ∧ c.Cohort = cohort))

/-- `getAEAttribution` (lines 625–661): partitions the cohort's claims by the
class's large-loss threshold and sums movements on each side; `largePct` is
guarded to `0` when the total movement is `0`. -/
def getAEAttribution (data : DashboardData) (className cohort : String) :
    AEAttribution :=
  let threshold := getLargeThreshold data className
  let cohortClaims := cohortClaimsOf data className cohort
  let acc := cohortClaims.foldl (attrStep threshold) ⟨0, 0, 0, 0, 0⟩
  let largePct :=
    if acc.totalMovement ≠ 0 then acc.largeLossMovement / acc.totalMovement * 100
    else 0
  { total := acc.totalMovement
    large := acc.largeLossMovement
    attritional := acc.attritionalMovement
    largePct := largePct
    largeLossCount := acc.largeLossCount
    attritionalCount := acc.attritionalCount
    totalCount := cohortClaims.length
    threshold := threshold }

/-! ## Reserving decision engine (dashboard.js `runDecisionDAG`, 566–619) -/

/-- The `opts` object passed to `runDecisionDAG`. -/
structure DagOpts where
  aeOverThreshold : Bool
  fanningOutBoth : Bool
  claimCountUp15 : Bool
  largeLossPct : Rat
  premiumChangePct : Rat
  methodType : String
  currentUltimate : Option Rat
  maxClaimsBasedUltimate : Option Rat
deriving DecidableEq, Repr

/-- The `{ driver, suggestion }` pair returned by `runDecisionDAG`. -/
structure DagResult where
  driver : String
  suggestion : String
deriving DecidableEq, Repr

/-- The rule-6 guard `maxClaimsBasedUltimate != null && currentUltimate !=
null && maxClaimsBasedUltimate > currentUltimate`. -/
def maxClaimsExceedsCurrent (maxClaimsUlt currentUlt : Option Rat) : Bool :=
  match maxClaimsUlt, currentUlt with
  | some m, some c => decide (m > c)
  | _, _ => false

/-- `runDecisionDAG(className, cohort, opts)` (lines 566–619): ordered rule
evaluation, first match wins. -/
def runDecisionDAG (className cohort : String) (opts : DagOpts) : DagResult :=
  if !opts.aeOverThreshold then
    ⟨"", ""⟩
  else if opts.fanningOutBoth then
    ⟨"Trend acceleration", "Check if the pattern is speeding up."⟩
  else if opts.claimCountUp15 then
    ⟨"Claim frequency",
     "Check if the pattern was slowing down — movement may be driven by more claims than expected."⟩
  else if opts.largeLossPct ≥ DAG_LARGE_LOSS_PCT_THRESHOLD then
    ⟨"Large losses", "Keep pattern as-is but treat large losses separately."⟩
  else if opts.premiumChangePct ≥ DAG_PREMIUM_CHANGE_THRESHOLD then
    ⟨"Premium growth", "Move toward premium-based method."⟩
  else if opts.methodType = "Premium-based" ∧
      maxClaimsExceedsCurrent opts.maxClaimsBasedUltimate opts.currentUltimate then
    ⟨"Method mismatch", "Switch to claims-based method."⟩
  else
    ⟨"Unclear", "Manual review of cohort experience."⟩

/-- The `opts` literal built by `renderDecisionTable` (lines 1887–1896) from
the per-cohort signals: `aeOverThreshold` is `Math.abs(aeRatio) >
DAG_AE_THRESHOLD`, `claimCountUp15` and `premiumChangePct` default over
`null` lookups, `largeLossPct` comes from the attribution. -/
def decisionOpts (ae : Rat) (inFO : Bool) (attribution : AEAttribution)
    (premiumChg : Option PremiumChange) (claimCountChg : Option ClaimCountChange)
    (methodType : String) (currentUlt maxClaimsUlt : Option Rat) : DagOpts :=
  { aeOverThreshold := decide (|ae| > DAG_AE_THRESHOLD)
    fanningOutBoth := inFO
    claimCountUp15 :=
      match claimCountChg with
      | some c => decide (c.changePct ≥ DAG_CLAIM_COUNT_THRESHOLD)
      | none => false
    largeLossPct := attribution.largePct
    premiumChangePct :=
      match premiumChg with
      | some p => p.changePct
      | none => 0
    methodType := methodType
    currentUltimate := currentUlt
    maxClaimsBasedUltimate := maxClaimsUlt }

/-! ## Fanning detector (dashboard.js `detectFanningCohorts`, 1446–1483) -/

/-- One element of `cohortSeriesData`: `{ cohort, dpMap: {dp → value} }`;
the JS object `dpMap` (unique integer keys) is an association list here. -/
structure FanSeries where
  cohort : String
  dpMap : List (Nat × Rat)
deriving DecidableEq, Repr

/-- Property access `dpMap[dp]` (`none` models `undefined`). -/
def dpLookup (m : List (Nat × Rat)) (dp : Nat) : Option Rat :=
  (m.find? (fun p => decide (p.1 = dp))).map (fun p => p.2)

/-- `Object.keys(current.dpMap).map(Number).sort((a, b) => a - b)`:
the ascending list of keys of the dp map. -/
def fanKeys (m : List (Nat × Rat)) : List Nat :=
  List.insertionSort (fun a b => a ≤ b) (m.map (fun p => p.1))

/-- `var FAN_THRESHOLD = 10;` (percentage-point deviation from older avg). -/
def FAN_THRESHOLD : Rat := 10

/-- One iteration (index `i ≥ 1`) of the `detectFanningCohorts` loop: skip
cohorts with fewer than 2 dps, average all strictly older cohorts' values at
the last dp, and flag the cohort when its value exceeds that average by more
than `FAN_THRESHOLD`. -/
def fanCheck (l : List FanSeries) (i : Nat) : Option String :=
  match l[i]? with
  | none => none
  | some current =>
    let dps := fanKeys current.dpMap
    if dps.length < 2 then none
    else
      let lastDP := dps.getLastD 0
      let olderVals := (l.take i).filterMap (fun s => dpLookup s.dpMap lastDP)
      if olderVals.length = 0 then none
      else
        let avg := olderVals.sum / (olderVals.length : Rat)
        match dpLookup current.dpMap lastDP with
        | none => none
        | some val => if val - avg > FAN_THRESHOLD then some current.cohort else none

/-- `detectFanningCohorts(cohortSeriesData)` (lines 1446–1483): empty when
fewer than 3 series; otherwise the loop runs `for (i = 1; i < length; i++)`
and collects each flagged cohort name. -/
def detectFanningCohorts (l : List FanSeries) : List String :=
  if l.length < 3 then []
  else ((List.range l.length).drop 1).filterMap (fanCheck l)

/-! ## Example datasets used by witnesses and counterexamples -/

/-- A two-method, one-cohort dataset: method M1 has projection quality 0.5,
method M2 has 0.9; their ultimates for cohort 2020 are 100 and 120. -/
def exDataBand : DashboardData :=
  ⟨[],
   [⟨"C", "2020", "M1", 100, "Claims-based"⟩,
    ⟨"C", "2020", "M2", 120, "Claims-based"⟩],
   [⟨"C", "M1", 0.5, 0.5⟩, ⟨"C", "M2", 0.5, 0.9⟩],
   [], [], [], []⟩

/-- Three chronologically ordered cohort series: the second cohort sits 20
points above the first at their last common development period, and the
third has a single point. -/
def exFanSeries : List FanSeries :=
  [⟨"2020Q1", [(0, 0), (1, 0)]⟩,
   ⟨"2020Q2", [(0, 0), (1, 20)]⟩,
   ⟨"2020Q3", [(0, 0)]⟩]

/-! ## Helper lemmas -/

/-- Any result of the claim-count scan with a nonzero prior carries the
ratio formula in its `changePct` field. -/
lemma claimCountScan_changePct (counts : List ClaimCountRow)
    (className cohort : String) (r : ClaimCountChange)
    (h : getClaimCountChange.claimCountScan counts className cohort = some r)
    (hp : r.countPrior ≠ 0) :
    r.changePct = (r.countCurrent - r.countPrior) / r.countPrior := by
  induction counts with
  | nil => simp [getClaimCountChange.claimCountScan] at h
  | cons c rest ih =>
    rw [getClaimCountChange.claimCountScan] at h
    by_cases hm : c.Class = className ∧ c.Cohort = cohort
    · rw [if_pos hm] at h
      by_cases hz : c.Count_Prior = 0
      · rw [if_pos hz] at h
        cases h
        simp at hp
      · rw [if_neg hz] at h
        cases h
        rfl
    · rw [if_neg hm] at h
      exact ih h

/-- The claim-count scan agrees with `List.find?` on the matching predicate:
when the first matching row has a zero prior, the scan returns the
zero-`changePct` record. -/
lemma claimCountScan_of_find? (counts : List ClaimCountRow)
    (className cohort : String) (c : ClaimCountRow)
    (hf : counts.find? (fun x => decide (x.Class = className ∧ x.Cohort = cohort)) =
      some c)
    (hz : c.Count_Prior = 0) :
    getClaimCountChange.claimCountScan counts className cohort =
      some ⟨c.Count_Current, 0, 0⟩ := by
  induction counts with
  | nil => simp at hf
  | cons x rest ih =>
    rw [List.find?_cons] at hf
    by_cases hm : x.Class = className ∧ x.Cohort = cohort
    · rw [getClaimCountChange.claimCountScan, if_pos hm]
      simp only [decide_eq_true hm] at hf
      cases hf
      rw [if_pos hz]
    · rw [getClaimCountChange.claimCountScan, if_neg hm]
      simp only [decide_eq_false hm] at hf
      exact ih hf

/-- With the claim-count flag off, the decision DAG never selects the
"Claim frequency" driver: every other branch carries a different string. -/
lemma dag_driver_ne_frequency_of_flag_false (className cohort : String)
    (opts : DagOpts) (h : opts.claimCountUp15 = false) :
    (runDecisionDAG className cohort opts).driver ≠ "Claim frequency" := by
  unfold runDecisionDAG
  rw [h]
  split_ifs <;> first | decide | simp_all

/-! ## Claims -/

/-- C1: for every cohort whose A-vs-E ratio satisfies |aeRatio| ≤ 0.05 (so
the caller's aeOverThreshold flag, computed as `Math.abs(aeRatio) >
DAG_AE_THRESHOLD`, is false), `runDecisionDAG` returns the pair
`{driver: '', suggestion: ''}`, regardless of the values of every other
input flag. -/
theorem C1_within_tolerance_no_signal (className cohort : String) (ae : Rat)
    (inFO : Bool) (attribution : AEAttribution)
    (premiumChg : Option PremiumChange) (claimCountChg : Option ClaimCountChange)
    (methodType : String) (currentUlt maxClaimsUlt : Option Rat)
    (h : |ae| ≤ DAG_AE_THRESHOLD) :
    runDecisionDAG className cohort
      (decisionOpts ae inFO attribution premiumChg claimCountChg methodType
        currentUlt maxClaimsUlt) = ⟨"", ""⟩ := by
  have hfalse : decide (|ae| > DAG_AE_THRESHOLD) = false :=
    decide_eq_false (not_lt.mpr h)
  simp [runDecisionDAG, decisionOpts, hfalse]

/-- C1 witness: instantiated at aeRatio = 0 with every other flag adverse. -/
theorem C1_within_tolerance_no_signal_witness :
    runDecisionDAG "Motor" "2022Q1"
      (decisionOpts 0 true ⟨500, 500, 0, 100, 1, 0, 1, 500⟩
        (some ⟨120, 100, 0.2⟩) (some ⟨120, 100, 0.2⟩) "Premium-based"
        (some 100) (some 200)) = ⟨"", ""⟩ :=
  C1_within_tolerance_no_signal "Motor" "2022Q1" 0 true
    ⟨500, 500, 0, 100, 1, 0, 1, 500⟩ (some ⟨120, 100, 0.2⟩)
    (some ⟨120, 100, 0.2⟩) "Premium-based" (some 100) (some 200) (by decide)

/-- C10: `runDecisionDAG` is determined entirely by its `opts` argument; the
`className` and `cohort` parameters do not influence the result. -/
theorem C10_dag_depends_only_on_opts (className1 cohort1 className2 cohort2 : String)
    (opts : DagOpts) :
    runDecisionDAG className1 cohort1 opts = runDecisionDAG className2 cohort2 opts :=
  rfl

/-- C7: a claim-count row with current 120 and prior 100 yields
changePct = 0.20, which meets the 0.15 threshold, so with the A-vs-E flag
set and the both-series fanning flag clear the DAG returns the
"Claim frequency" driver. -/
theorem C7_claim_count_growth_fires_frequency (data : DashboardData)
    (className cohort : String) (r : ClaimCountChange)
    (h : getClaimCountChange data className cohort = some r)
    (h120 : r.countCurrent = 120) (h100 : r.countPrior = 100) :
    r.changePct = 0.20 ∧ DAG_CLAIM_COUNT_THRESHOLD ≤ r.changePct ∧
    ∀ (className2 cohort2 : String) (opts : DagOpts),
      opts.aeOverThreshold = true → opts.fanningOutBoth = false →
      opts.claimCountUp15 = decide (r.changePct ≥ DAG_CLAIM_COUNT_THRESHOLD) →
      (runDecisionDAG className2 cohort2 opts).driver = "Claim frequency" := by
  have hp : r.countPrior ≠ 0 := by rw [h100]; norm_num
  have hc : r.changePct = (r.countCurrent - r.countPrior) / r.countPrior :=
    claimCountScan_changePct data.cohort_claim_counts className cohort r h hp
  rw [h120, h100] at hc
  have hval : r.changePct = 0.20 := by rw [hc]; norm_num
  refine ⟨hval, ?_, ?_⟩
  · rw [hval]; norm_num [DAG_CLAIM_COUNT_THRESHOLD]
  · intro className2 cohort2 opts hae hfan hcc
    have hup : opts.claimCountUp15 = true := by rw [hcc, hval]; decide
    simp [runDecisionDAG, hae, hfan, hup]

/-- C7 witness: a one-row claim-count table with current 120 and prior 100,
fed into the DAG with the A-vs-E flag set and fanning clear. -/
theorem C7_claim_count_growth_fires_frequency_witness :
    (runDecisionDAG "Motor" "2022Q1"
      ⟨true, false, true, 0, 0, "Claims-based", none, none⟩).driver =
      "Claim frequency" :=
  (C7_claim_count_growth_fires_frequency
      ⟨[], [], [], [], [], [], [⟨"Motor", "2022Q1", 120, 100⟩]⟩
      "Motor" "2022Q1" ⟨120, 100, 0.2⟩ (by decide) (by decide)
      (by decide)).2.2 "Motor" "2022Q1"
    ⟨true, false, true, 0, 0, "Claims-based", none, none⟩ rfl rfl (by decide)

/-- C9: when the first matching cohort_claim_counts row has Count_Prior = 0,
`getClaimCountChange` returns the record with countPrior 0 and changePct 0
(not null and no division), whatever Count_Current is; with the claim-count
flag computed from that zero changePct the DAG can never return the
"Claim frequency" driver. -/
theorem C9_zero_prior_count_guard (data : DashboardData)
    (className cohort : String) (c : ClaimCountRow)
    (hf : data.cohort_claim_counts.find?
      (fun x => decide (x.Class = className ∧ x.Cohort = cohort)) = some c)
    (hz : c.Count_Prior = 0) :
    getClaimCountChange data className cohort = some ⟨c.Count_Current, 0, 0⟩ ∧
    ∀ (className2 cohort2 : String) (opts : DagOpts),
      opts.claimCountUp15 = decide ((0 : Rat) ≥ DAG_CLAIM_COUNT_THRESHOLD) →
      (runDecisionDAG className2 cohort2 opts).driver ≠ "Claim frequency" := by
  refine ⟨claimCountScan_of_find? data.cohort_claim_counts className cohort c hf hz, ?_⟩
  intro className2 cohort2 opts hcc
  have hfalse : opts.claimCountUp15 = false := by rw [hcc]; decide
  exact dag_driver_ne_frequency_of_flag_false className2 cohort2 opts hfalse

/-- C9 witness: a one-row table with prior count 0 and current count 40. -/
theorem C9_zero_prior_count_guard_witness :
    getClaimCountChange ⟨[], [], [], [], [], [], [⟨"Motor", "2021Q3", 40, 0⟩]⟩
      "Motor" "2021Q3" = some ⟨40, 0, 0⟩ ∧
    ∀ (className2 cohort2 : String) (opts : DagOpts),
      opts.claimCountUp15 = decide ((0 : Rat) ≥ DAG_CLAIM_COUNT_THRESHOLD) →
      (runDecisionDAG className2 cohort2 opts).driver ≠ "Claim frequency" :=
  C9_zero_prior_count_guard ⟨[], [], [], [], [], [], [⟨"Motor", "2021Q3", 40, 0⟩]⟩
    "Motor" "2021Q3" ⟨"Motor", "2021Q3", 40, 0⟩ (by decide) (by decide)

/-! ## Attribution fold invariants (helpers for C4 and C8) -/

/-- The attribution loop preserves the difference between the two-sided sum
and the total movement. -/
lemma attrFold_movement (threshold : Rat) (claims : List ClaimMovement) :
    ∀ acc : AttrAcc,
      (claims.foldl (attrStep threshold) acc).largeLossMovement +
        (claims.foldl (attrStep threshold) acc).attritionalMovement -
        (claims.foldl (attrStep threshold) acc).totalMovement =
      acc.largeLossMovement + acc.attritionalMovement - acc.totalMovement := by
  induction claims with
  | nil => intro acc; rfl
  | cons c rest ih =>
    intro acc
    rw [List.foldl_cons, ih]
    unfold attrStep
    split_ifs <;> simp <;> ring

/-- The attribution loop adds exactly one to one of the two counters per
claim. -/
lemma attrFold_counts (threshold : Rat) (claims : List ClaimMovement) :
    ∀ acc : AttrAcc,
      (claims.foldl (attrStep threshold) acc).largeLossCount +
        (claims.foldl (attrStep threshold) acc).attritionalCount =
      acc.largeLossCount + acc.attritionalCount + claims.length := by
  induction claims with
  | nil => intro acc; simp
  | cons c rest ih =>
    intro acc
    rw [List.foldl_cons, ih]
    unfold attrStep
    split_ifs <;> simp <;> omega

/-- The large-loss counter counts exactly the claims at or above the
threshold. -/
lemma attrFold_largeCount (threshold : Rat) (claims : List ClaimMovement) :
    ∀ acc : AttrAcc,
      (claims.foldl (attrStep threshold) acc).largeLossCount =
      acc.largeLossCount +
        (claims.filter (fun c => decide (c.Incurred_Current ≥ threshold))).length := by
  induction claims with
  | nil => intro acc; simp
  | cons c rest ih =>
    intro acc
    rw [List.foldl_cons, ih]
    unfold attrStep
    by_cases hc : c.Incurred_Current ≥ threshold
    · simp [hc]; omega
    · simp [hc]

/-- C4: for every class and cohort the attribution of `getAEAttribution`
conserves movement (`large + attritional = total`) and counts
(`largeLossCount + attritionalCount = totalCount`), where `totalCount` is
the number of claim records of that class and cohort. -/
theorem C4_attribution_conservation (data : DashboardData)
    (className cohort : String) :
    (getAEAttribution data className cohort).large +
      (getAEAttribution data className cohort).attritional =
      (getAEAttribution data className cohort).total ∧
    (getAEAttribution data className cohort).largeLossCount +
      (getAEAttribution data className cohort).attritionalCount =
      (getAEAttribution data className cohort).totalCount ∧
    (getAEAttribution data className cohort).totalCount =
      (cohortClaimsOf data className cohort).length := by
  refine ⟨?_, ?_, rfl⟩
  · have h := attrFold_movement (getLargeThreshold data className)
      (cohortClaimsOf data className cohort) ⟨0, 0, 0, 0, 0⟩
    simp only [getAEAttribution]
    simp at h
    linarith
  · have h := attrFold_counts (getLargeThreshold data className)
      (cohortClaimsOf data className cohort) ⟨0, 0, 0, 0, 0⟩
    simp only [getAEAttribution]
    simp at h
    omega

/-- C8: for a class with no `large_loss_thresholds` entry, and for a class
whose entry is 0, `getLargeThreshold` returns the fixed default 100000, and
`getAEAttribution` consequently partitions that class's claims using
threshold 100000 (its `threshold` field is 100000 and its large-loss count
is the number of cohort claims with current incurred at least 100000). -/
theorem C8_large_threshold_default (data : DashboardData)
    (className cohort : String)
    (h : lookupLargeThreshold data.large_loss_thresholds className = none ∨
      lookupLargeThreshold data.large_loss_thresholds className = some 0) :
    getLargeThreshold data className = 100000 ∧
    (getAEAttribution data className cohort).threshold = 100000 ∧
    (getAEAttribution data className cohort).largeLossCount =
      ((cohortClaimsOf data className cohort).filter
        (fun c => decide (c.Incurred_Current ≥ (100000 : Rat)))).length := by
  have hth : getLargeThreshold data className = 100000 := by
    rcases h with h | h <;> simp [getLargeThreshold, h]
  refine ⟨hth, ?_, ?_⟩
  · simp only [getAEAttribution]
    exact hth
  · have hcnt := attrFold_largeCount (getLargeThreshold data className)
      (cohortClaimsOf data className cohort) ⟨0, 0, 0, 0, 0⟩
    simp only [getAEAttribution]
    rw [hcnt, hth]
    simp

/-- C8 witness: a dataset whose threshold table has a zero entry for
"Motor" and no entry for any other class, with one large and one
attritional claim in the 2020Q1 cohort. -/
theorem C8_large_threshold_default_witness :
    getLargeThreshold
      ⟨[], [], [],
        [⟨"Motor", "2020Q1", "CL1", "Open", 150000, 120000⟩,
         ⟨"Motor", "2020Q1", "CL2", "Open", 50000, 60000⟩],
        [("Motor", 0)], [], []⟩ "Motor" = 100000 ∧
    (getAEAttribution
      ⟨[], [], [],
        [⟨"Motor", "2020Q1", "CL1", "Open", 150000, 120000⟩,
         ⟨"Motor", "2020Q1", "CL2", "Open", 50000, 60000⟩],
        [("Motor", 0)], [], []⟩ "Motor" "2020Q1").threshold = 100000 ∧
    (getAEAttribution
      ⟨[], [], [],
        [⟨"Motor", "2020Q1", "CL1", "Open", 150000, 120000⟩,
         ⟨"Motor", "2020Q1", "CL2", "Open", 50000, 60000⟩],
        [("Motor", 0)], [], []⟩ "Motor" "2020Q1").largeLossCount =
      ((cohortClaimsOf
        ⟨[], [], [],
          [⟨"Motor", "2020Q1", "CL1", "Open", 150000, 120000⟩,
           ⟨"Motor", "2020Q1", "CL2", "Open", 50000, 60000⟩],
          [("Motor", 0)], [], []⟩ "Motor" "2020Q1").filter
        (fun c => decide (c.Incurred_Current ≥ (100000 : Rat)))).length :=
  C8_large_threshold_default
    ⟨[], [], [],
      [⟨"Motor", "2020Q1", "CL1", "Open", 150000, 120000⟩,
       ⟨"Motor", "2020Q1", "CL2", "Open", 50000, 60000⟩],
      [("Motor", 0)], [], []⟩ "Motor" "2020Q1" (Or.inr (by decide))

/-- C5: the development fraction satisfies `f 0 = 0`, `f MAX = 1` with
MAX = 12, is monotonically non-decreasing on [0, MAX], is clamped to 0
below 0 and to 1 above MAX, equals `1 - (1 - dp/12)^2` on [0, MAX], and
takes the stated values at 3, 6 and 9. -/
theorem C5_development_curve :
    developmentFraction 0 = 0 ∧
    developmentFraction MAX_DEV_PERIOD = 1 ∧
    (∀ x y : Rat, 0 ≤ x → x ≤ y → y ≤ MAX_DEV_PERIOD →
      developmentFraction x ≤ developmentFraction y) ∧
    (∀ dp : Rat, dp ≤ 0 → developmentFraction dp = 0) ∧
    (∀ dp : Rat, MAX_DEV_PERIOD ≤ dp → developmentFraction dp = 1) ∧
    (∀ dp : Rat, 0 ≤ dp → dp ≤ MAX_DEV_PERIOD →
      developmentFraction dp = 1 - (1 - dp / 12) ^ 2) ∧
    developmentFraction 3 = 0.4375 ∧
    developmentFraction 6 = 0.75 ∧
    developmentFraction 9 = 0.9375 := by
  refine ⟨by decide, by decide, ?_, ?_, ?_, ?_, by decide, by decide, by decide⟩
  · intro x y hx hxy hy
    simp only [developmentFraction, MAX_DEV_PERIOD] at *
    split_ifs <;>
      nlinarith [sq_nonneg (1 - x / 12), sq_nonneg (1 - y / 12),
        sq_nonneg (x / 12 - y / 12)]
  · intro dp hdp
    simp only [developmentFraction, MAX_DEV_PERIOD]
    have h1 : ¬ (dp / 12 ≥ 1) := by
      intro hc
      nlinarith
    rw [if_neg h1, if_pos (by linarith : dp / 12 ≤ 0)]
  · intro dp hdp
    simp only [MAX_DEV_PERIOD] at hdp
    simp only [developmentFraction, MAX_DEV_PERIOD]
    rw [if_pos (by linarith : dp / 12 ≥ 1)]
  · intro dp h0 h12
    simp only [developmentFraction, MAX_DEV_PERIOD]
    split_ifs with h1 h2
    · have : dp = 12 := by
        simp only [MAX_DEV_PERIOD] at h12
        nlinarith
      rw [this]
      norm_num
    · have : dp = 0 := le_antisymm (by linarith) h0
      rw [this]
      norm_num
    · rfl

/-- C5 witness: the monotonicity, low clamp, high clamp and interior
formula components instantiated at concrete development periods. -/
theorem C5_development_curve_witness :
    developmentFraction 2 ≤ developmentFraction 5 ∧
    developmentFraction (-3) = 0 ∧
    developmentFraction 15 = 1 ∧
    developmentFraction 4 = 1 - (1 - 4 / 12) ^ 2 :=
  ⟨C5_development_curve.2.2.1 2 5 (by norm_num) (by norm_num)
      (by norm_num [MAX_DEV_PERIOD]),
   C5_development_curve.2.2.2.1 (-3) (by norm_num),
   C5_development_curve.2.2.2.2.1 15 (by norm_num [MAX_DEV_PERIOD]),
   C5_development_curve.2.2.2.2.2.1 4 (by norm_num) (by norm_num [MAX_DEV_PERIOD])⟩

/-! ## Min/max fold lemmas (helpers for C3) -/

/-- A left fold of `min` is bounded by its initial value. -/
lemma foldl_min_le_init (l : List Rat) : ∀ a : Rat, l.foldl min a ≤ a := by
  induction l with
  | nil => intro a; simp
  | cons b bs ih =>
    intro a
    calc (b :: bs).foldl min a = bs.foldl min (min a b) := by rw [List.foldl_cons]
    _ ≤ min a b := ih (min a b)
    _ ≤ a := min_le_left a b

/-- A left fold of `min` is bounded by every list element. -/
lemma foldl_min_le_mem (l : List Rat) :
    ∀ (a x : Rat), x ∈ l → l.foldl min a ≤ x := by
  induction l with
  | nil => intro a x hx; simp at hx
  | cons b bs ih =>
    intro a x hx
    rw [List.foldl_cons]
    rcases List.mem_cons.mp hx with h | h
    · subst h
      calc bs.foldl min (min a x) ≤ min a x := foldl_min_le_init bs (min a x)
      _ ≤ x := min_le_right a x
    · exact ih (min a b) x h

/-- A left fold of `min` is either the initial value or a list element. -/
lemma foldl_min_mem (l : List Rat) :
    ∀ a : Rat, l.foldl min a = a ∨ l.foldl min a ∈ l := by
  induction l with
  | nil => intro a; left; rfl
  | cons b bs ih =>
    intro a
    rw [List.foldl_cons]
    rcases ih (min a b) with h | h
    · rcases min_choice a b with hm | hm
      · left; rw [h, hm]
      · right; rw [h, hm]; exact List.mem_cons_self b bs
    · right; exact List.mem_cons_of_mem b h

/-- A left fold of `max` dominates its initial value. -/
lemma le_foldl_max_init (l : List Rat) : ∀ a : Rat, a ≤ l.foldl max a := by
  induction l with
  | nil => intro a; simp
  | cons b bs ih =>
    intro a
    calc a ≤ max a b := le_max_left a b
    _ ≤ bs.foldl max (max a b) := ih (max a b)
    _ = (b :: bs).foldl max a := by rw [List.foldl_cons]

/-- A left fold of `max` dominates every list element. -/
lemma le_foldl_max_mem (l : List Rat) :
    ∀ (a x : Rat), x ∈ l → x ≤ l.foldl max a := by
  induction l with
  | nil => intro a x hx; simp at hx
  | cons b bs ih =>
    intro a x hx
    rw [List.foldl_cons]
    rcases List.mem_cons.mp hx with h | h
    · subst h
      calc x ≤ max a x := le_max_right a x
      _ ≤ bs.foldl max (max a x) := le_foldl_max_init bs (max a x)
    · exact ih (max a b) x h

/-- A left fold of `max` is either the initial value or a list element. -/
lemma foldl_max_mem (l : List Rat) :
    ∀ a : Rat, l.foldl max a = a ∨ l.foldl max a ∈ l := by
  induction l with
  | nil => intro a; left; rfl
  | cons b bs ih =>
    intro a
    rw [List.foldl_cons]
    rcases ih (max a b) with h | h
    · rcases max_choice a b with hm | hm
      · left; rw [h, hm]
      · right; rw [h, hm]; exact List.mem_cons_self b bs
    · right; exact List.mem_cons_of_mem b h

/-- Raising the quality threshold only removes methods from the passing set. -/
lemma getPassingMethods_antitone (data : DashboardData) (className : String)
    (t1 t2 : Rat) (h12 : t1 ≤ t2) :
    ∀ m, m ∈ getPassingMethods data className t2 →
      m ∈ getPassingMethods data className t1 := by
  intro m hm
  simp only [getPassingMethods, List.mem_map] at hm ⊢
  rcases hm with ⟨s, hs, hmethod⟩
  refine ⟨s, ?_, hmethod⟩
  rw [List.mem_filter] at hs ⊢
  refine ⟨hs.1, ?_⟩
  have h2 := of_decide_eq_true hs.2
  exact decide_eq_true ⟨h2.1, le_trans h12 h2.2⟩

/-- Shrinking the passing set only removes values from the band list. -/
lemma bandVals_subset (data : DashboardData) (className cohort : String)
    (pm1 pm2 : List String) (hpm : ∀ m, m ∈ pm2 → m ∈ pm1) :
    ∀ x, x ∈ bandVals data className cohort pm2 →
      x ∈ bandVals data className cohort pm1 := by
  intro x hx
  simp only [bandVals, List.mem_map] at hx ⊢
  rcases hx with ⟨u, hu, hval⟩
  refine ⟨u, ?_, hval⟩
  rw [List.mem_filter] at hu ⊢
  refine ⟨hu.1, ?_⟩
  have h2 := of_decide_eq_true hu.2
  exact decide_eq_true ⟨h2.1, h2.2.1, hpm u.Method h2.2.2⟩

/-- The folded minimum of a nonempty list is a member of it. -/
lemma foldl_min_mem_cons (v : Rat) (vs : List Rat) :
    vs.foldl min v ∈ v :: vs := by
  rcases foldl_min_mem vs v with h | h
  · rw [h]; exact List.mem_cons_self v vs
  · exact List.mem_cons_of_mem v h

/-- The folded minimum of a nonempty list bounds every member from below. -/
lemma foldl_min_le_cons (v x : Rat) (vs : List Rat) (hx : x ∈ v :: vs) :
    vs.foldl min v ≤ x := by
  rcases List.mem_cons.mp hx with h | h
  · subst h; exact foldl_min_le_init vs x
  · exact foldl_min_le_mem vs v x h

/-- The folded maximum of a nonempty list is a member of it. -/
lemma foldl_max_mem_cons (v : Rat) (vs : List Rat) :
    vs.foldl max v ∈ v :: vs := by
  rcases foldl_max_mem vs v with h | h
  · rw [h]; exact List.mem_cons_self v vs
  · exact List.mem_cons_of_mem v h

/-- The folded maximum of a nonempty list dominates every member. -/
lemma le_foldl_max_cons (v x : Rat) (vs : List Rat) (hx : x ∈ v :: vs) :
    x ≤ vs.foldl max v := by
  rcases List.mem_cons.mp hx with h | h
  · subst h; exact le_foldl_max_init vs x
  · exact le_foldl_max_mem vs v x h

/-- C3: for thresholds t1 < t2 in [0,1], the passing-method set at t2 is a
subset of the passing-method set at t1, and whenever both ultimate bands are
non-null the t2 band is nested in the t1 band (max shrinks, min grows). -/
theorem C3_band_monotonicity (data : DashboardData) (className cohort : String)
    (t1 t2 : Rat) (h0 : 0 ≤ t1) (ht : t1 < t2) (h1 : t2 ≤ 1) :
    (∀ m, m ∈ getPassingMethods data className t2 →
      m ∈ getPassingMethods data className t1) ∧
    ∀ b1 b2 : Band,
      getUltimateBand data className cohort
        (getPassingMethods data className t1) = some b1 →
      getUltimateBand data className cohort
        (getPassingMethods data className t2) = some b2 →
      b2.max ≤ b1.max ∧ b1.min ≤ b2.min := by
  have hpm := getPassingMethods_antitone data className t1 t2 (le_of_lt ht)
  refine ⟨hpm, ?_⟩
  intro b1 b2 hb1 hb2
  have hsub := bandVals_subset data className cohort
    (getPassingMethods data className t1) (getPassingMethods data className t2) hpm
  unfold getUltimateBand at hb1 hb2
  cases hv1 : bandVals data className cohort (getPassingMethods data className t1) with
  | nil => rw [hv1] at hb1; cases hb1
  | cons v1 vs1 =>
    cases hv2 : bandVals data className cohort (getPassingMethods data className t2) with
    | nil => rw [hv2] at hb2; cases hb2
    | cons v2 vs2 =>
      rw [hv1] at hb1
      rw [hv2] at hb2
      cases hb1
      cases hb2
      constructor
      · have hmem2 : vs2.foldl max v2 ∈ v2 :: vs2 := foldl_max_mem_cons v2 vs2
        have hmem1 : vs2.foldl max v2 ∈ v1 :: vs1 := by
          have := hsub (vs2.foldl max v2) (by rw [hv2]; exact hmem2)
          rwa [hv1] at this
        exact le_foldl_max_cons v1 (vs2.foldl max v2) vs1 hmem1
      · have hmem2 : vs2.foldl min v2 ∈ v2 :: vs2 := foldl_min_mem_cons v2 vs2
        have hmem1 : vs2.foldl min v2 ∈ v1 :: vs1 := by
          have := hsub (vs2.foldl min v2) (by rw [hv2]; exact hmem2)
          rwa [hv1] at this
        exact foldl_min_le_cons v1 (vs2.foldl min v2) vs1 hmem1

/-- C3 witness: thresholds 0.3 < 0.7 on the two-method dataset; the passing
set shrinks from both methods to only M2 and the band narrows from
[100, 120] to [120, 120]. -/
theorem C3_band_monotonicity_witness :
    ("M2" ∈ getPassingMethods exDataBand "C" 0.3) ∧
    ((Band.mk 120 120 1).max ≤ (Band.mk 100 120 2).max ∧
     (Band.mk 100 120 2).min ≤ (Band.mk 120 120 1).min) :=
  ⟨(C3_band_monotonicity exDataBand "C" "2020" 0.3 0.7 (by norm_num)
      (by norm_num) (by norm_num)).1 "M2" (by decide),
   (C3_band_monotonicity exDataBand "C" "2020" 0.3 0.7 (by norm_num)
      (by norm_num) (by norm_num)).2 ⟨100, 120, 2⟩ ⟨120, 120, 1⟩
      (by decide) (by decide)⟩

/-- An index in the tail of `List.range n` is at least 1 and below n. -/
lemma mem_range_drop_one {n i : Nat} (h : i ∈ (List.range n).drop 1) :
    1 ≤ i ∧ i < n := by
  cases n with
  | zero => simp at h
  | succ m =>
    rw [List.range_succ_eq_map] at h
    simp only [List.drop_succ_cons, List.drop_zero, List.mem_map] at h
    rcases h with ⟨j, hj, rfl⟩
    rw [List.mem_range] at hj
    omega

/-- Any cohort name produced by `fanCheck` at index `i` is the cohort name
of the series stored at index `i`. -/
lemma fanCheck_some (l : List FanSeries) (i : Nat) (c : String)
    (h : fanCheck l i = some c) :
    ∃ current, l[i]? = some current ∧ current.cohort = c := by
  unfold fanCheck at h
  cases hget : l[i]? with
  | none => rw [hget] at h; cases h
  | some current =>
    rw [hget] at h
    refine ⟨current, rfl, ?_⟩
    simp only at h
    split_ifs at h with h1 h2
    cases hlook : dpLookup current.dpMap ((fanKeys current.dpMap).getLastD 0) with
    | none => rw [hlook] at h; cases h
    | some val =>
      rw [hlook] at h
      dsimp only at h
      split_ifs at h with h3
      exact (Option.some.injEq _ _).mp h

/-- C2 counterexample: on the three-series input `exFanSeries` the detector
flags "2020Q2", which is the second cohort in chronological order (index 1),
so its output is not confined to cohorts strictly after the first two. -/
theorem C2_fanning_counterexample :
    detectFanningCohorts exFanSeries = ["2020Q2"] ∧
    exFanSeries[1]? = some ⟨"2020Q2", [(0, 0), (1, 20)]⟩ ∧
    ¬ (∀ c ∈ detectFanningCohorts exFanSeries,
        ∃ s ∈ exFanSeries.drop 2, s.cohort = c) :=
  ⟨by decide, by decide, by decide⟩

/-- C2 amended: `detectFanningCohorts` returns the empty list whenever its
input has fewer than 3 series, and every flagged cohort is the cohort name
of a series strictly after the first — the loop starts at index 1, so only
the first cohort (not the first two) is exempt from flagging. -/
theorem C2_fanning_requires_three_skips_first (l : List FanSeries) :
    (l.length < 3 → detectFanningCohorts l = []) ∧
    ∀ c ∈ detectFanningCohorts l, ∃ s ∈ l.drop 1, s.cohort = c := by
  constructor
  · intro h
    simp [detectFanningCohorts, h]
  · intro c hc
    unfold detectFanningCohorts at hc
    by_cases hlen : l.length < 3
    · rw [if_pos hlen] at hc
      simp at hc
    · rw [if_neg hlen] at hc
      rw [List.mem_filterMap] at hc
      rcases hc with ⟨i, hi, hfc⟩
      have hir := mem_range_drop_one hi
      rcases fanCheck_some l i c hfc with ⟨current, hget, hcoh⟩
      refine ⟨current, ?_, hcoh⟩
      have hdrop : (l.drop 1)[i - 1]? = some current := by
        rw [List.getElem?_drop]
        have h1i : 1 + (i - 1) = i := by omega
        rw [h1i, hget]
      exact List.getElem?_mem hdrop

/-- C2 amended witness: the short-input clause at a one-series list and the
index clause at `exFanSeries`, whose flagged cohort "2020Q2" is the series
after the first. -/
theorem C2_fanning_requires_three_skips_first_witness :
    detectFanningCohorts [⟨"2021Q1", [(0, 0), (1, 30)]⟩] = [] ∧
    (∃ s ∈ exFanSeries.drop 1, s.cohort = "2020Q2") :=
  ⟨(C2_fanning_requires_three_skips_first [⟨"2021Q1", [(0, 0), (1, 30)]⟩]).1
      (by decide),
   (C2_fanning_requires_three_skips_first exFanSeries).2 "2020Q2" (by decide)⟩

/-- C6: for every class, cohort and record type, the per-cohort array built
by the grouping operation contains exactly the (developmentPeriod, value)
pairs of the input records with that class, cohort and type (as a
permutation — records of other classes are excluded), is sorted ascending
by developmentPeriod, and `getGroupedData` assembles exactly these arrays;
the embedding is a pure function of its input, so the input list is never
modified. -/
theorem C6_grouping_exact_and_sorted (data : DashboardData)
    (className cohort : String) :
    (∀ ty : RecType,
      (seriesFor data className cohort ty).Perm
        ((data.records.filter (fun r =>
          decide (r.Class = className ∧ r.Cohort = cohort ∧ r.Type' = ty))).map
          (fun r => DevPoint.mk r.Development_Period r.Value)) ∧
      (seriesFor data className cohort ty).Pairwise (fun a b => a.dp ≤ b.dp)) ∧
    getGroupedData data className cohort =
      ⟨seriesFor data className cohort RecType.Actual,
       seriesFor data className cohort RecType.Expected⟩ := by
  refine ⟨?_, rfl⟩
  intro ty
  constructor
  · unfold seriesFor
    refine (List.perm_insertionSort _ _).trans ?_
    rw [List.filter_filter]
    have hpred : ∀ r ∈ data.records,
        (decide (r.Cohort = cohort ∧ r.Type' = ty) &&
          decide (r.Class = className)) =
        decide (r.Class = className ∧ r.Cohort = cohort ∧ r.Type' = ty) := by
      intro r _
      by_cases h1 : r.Class = className <;> by_cases h2 : r.Cohort = cohort <;>
        by_cases h3 : r.Type' = ty <;> simp [h1, h2, h3]
    rw [List.filter_congr hpred]
  · haveI : IsTotal DevPoint (fun a b => a.dp ≤ b.dp) :=
      ⟨fun a b => Nat.le_total a.dp b.dp⟩
    haveI : IsTrans DevPoint (fun a b => a.dp ≤ b.dp) :=
      ⟨fun _ _ _ hab hbc => le_trans hab hbc⟩
    exact List.sorted_insertionSort _ _
